import Mathlib

/-!
Shallow embedding of the pyraxis RAXIS-file decoder
(src/pyraxis/pyraxis.py: functions `_interpret` and `read_raxis_file`).

A file is modelled as a `List Nat` of byte values.  Python `long`
arithmetic is unbounded, so widths, heights and pixel counts are `Nat`.
Python 2 true division (`from __future__ import division` is in force in
pyraxis.py, so `len(arr) / 4` is exact, not floored) is modelled in `ℚ`.
The numpy exceptions that escape `_interpret` uncaught (a `ValueError`
from `.view` on a slice whose byte length is not a multiple of the item
size, a `TypeError` from `long()` applied to an array that does not have
exactly one element) are modelled as explicit error values, and the
`try/except ValueError` around the final view/slice/reshape is modelled
by the branches that produce `shapeErr`.  The `logbook.info` and
`logbook.debug` calls are modelled as a writer-style list of log records
returned next to the result.
-/

/-- Byte order tag, `'>'` (big) or `'<'` (little) in the source. -/
inductive Endian where
  | big
  | little
deriving DecidableEq

/-- Errors that can escape `read_raxis_file`: the explicit `IOError` for a
bad magic, the `ShapeError` raised in the `except ValueError` handler
(carrying the numeric content of the diagnostics string: raw length,
raw length / 4 under true division, width, height, and
len / 4 - width * height), and the uncaught numpy `ValueError` /
`TypeError` exceptions from the header reads. -/
inductive PyErr where
  | notRaxis
  | shape (rawLen : Nat) (quarterLen : ℚ) (width height : Nat) (discrepancy : ℚ)
  | valueError
  | typeError
deriving DecidableEq

/-- The decoded result: a `width × height` row-major grid of u16 samples,
stored as dimensions plus the flat sample list. -/
structure Image where
  width : Nat
  height : Nat
  data : List Nat
deriving DecidableEq

/-- Log records emitted through the module-level `logbook` logger:
the `logbook.info` line (endianness and dimensions) and the
`logbook.debug` line (the diagnostics values). -/
inductive LogRec where
  | info (e : Endian) (width height : Nat)
  | debug (rawLen : Nat) (quarterLen : ℚ) (width height : Nat) (discrepancy : ℚ)
deriving DecidableEq

/-- The 4 bytes of a big-endian u32. -/
def u4be : List Nat → Nat
  | [b0, b1, b2, b3] => ((b0 * 256 + b1) * 256 + b2) * 256 + b3
  | _ => 0

/-- The 4 bytes of a little-endian u32. -/
def u4le : List Nat → Nat
  | [b0, b1, b2, b3] => ((b3 * 256 + b2) * 256 + b1) * 256 + b0
  | _ => 0

/-- Read a u32 under the given byte order. -/
def readU4 (e : Endian) (bs : List Nat) : Nat :=
  match e with
  | .big => u4be bs
  | .little => u4le bs

/-- Slice `arr[796:800]`, the version field used for endianness detection. -/
def versionBytes (arr : List Nat) : List Nat := (arr.drop 796).take 4

/-- Slice `arr[768:772]`, the width field. -/
def widthBytes (arr : List Nat) : List Nat := (arr.drop 768).take 4

/-- Slice `arr[772:776]`, the height field. -/
def heightBytes (arr : List Nat) : List Nat := (arr.drop 772).take 4

/-- The line `endian = '>' if arr[796:800].view('>u4') < 20 else '<'`.  A full
4-byte slice is compared against 20 big-endian; an empty slice (buffer
shorter than 797 bytes) yields an empty array whose truth value is
`False` under the numpy of the source's era, hence little-endian. -/
def resolveEndian (arr : List Nat) : Endian :=
  if (versionBytes arr).length = 4 ∧ u4be (versionBytes arr) < 20 then .big
  else .little

/-- The width read `long(arr[768:772].view(endian + 'u4'))`. -/
def widthOf (arr : List Nat) : Nat := readU4 (resolveEndian arr) (widthBytes arr)

/-- The height read `long(arr[772:776].view(endian + 'u4'))`. -/
def heightOf (arr : List Nat) : Nat := readU4 (resolveEndian arr) (heightBytes arr)

/-- The number of u16 samples the slice asks for: `width * height` in
unbounded (`long`) arithmetic. -/
def pixelCount (arr : List Nat) : Nat := widthOf arr * heightOf arr

/-- The view `arr.view(endian + 'u2')`: reinterpret consecutive byte pairs as u16
values under the given byte order.  Only called on even lengths; the
catch-all keeps the function total. -/
def pairU16 (e : Endian) : List Nat → List Nat
  | b0 :: b1 :: rest =>
      (match e with
       | .big => b0 * 256 + b1
       | .little => b1 * 256 + b0) :: pairU16 e rest
  | _ => []

/-- The `ShapeError` payload: the numeric values interpolated into the
diagnostics string, with `len(arr) / 4` under Python true division. -/
def shapeErr (arr : List Nat) : PyErr :=
  .shape arr.length ((arr.length : ℚ) / 4) (widthOf arr) (heightOf arr)
    ((arr.length : ℚ) / 4 - ((widthOf arr * heightOf arr : Nat) : ℚ))

/-- The two log records `_interpret` emits (via `logbook.info` and
`logbook.debug`) once the dimensions have been read. -/
def decodeLogRecords (arr : List Nat) : List LogRec :=
  [LogRec.info (resolveEndian arr) (widthOf arr) (heightOf arr),
   LogRec.debug arr.length ((arr.length : ℚ) / 4) (widthOf arr) (heightOf arr)
     ((arr.length : ℚ) / 4 - ((widthOf arr * heightOf arr : Nat) : ℚ))]

/-- The slice `arr.view(endian + 'u2')[-(width * height):]`: Python slicing with a
negative start clamps at 0 (so asking for more samples than exist gives
the whole array), and `[-0:]` is `[0:]`, the whole array. -/
def tailPixels (arr : List Nat) : List Nat :=
  if widthOf arr * heightOf arr = 0 then pairU16 (resolveEndian arr) arr
  else (pairU16 (resolveEndian arr) arr).drop
    ((pairU16 (resolveEndian arr) arr).length - widthOf arr * heightOf arr)

/-- The body of `_interpret` after the header fields have been read
successfully: the log calls followed by the `try` block.  A `ValueError`
(odd byte length at `.view('u2')`, or a slice whose length does not
match `width * height` at `.reshape`) is caught and turned into the
`ShapeError` carrying the diagnostics. -/
def interpretBody (arr : List Nat) : Except PyErr Image × List LogRec :=
  if arr.length % 2 ≠ 0 then
    (.error (shapeErr arr), decodeLogRecords arr)
  else if (tailPixels arr).length = widthOf arr * heightOf arr then
    (.ok ⟨widthOf arr, heightOf arr, tailPixels arr⟩, decodeLogRecords arr)
  else
    (.error (shapeErr arr), decodeLogRecords arr)

/-- The function `_interpret(arr)` with its log output.  The header reads can raise
uncaught numpy errors: `.view('u4')` on a slice of 1–3 bytes raises
`ValueError`; `long()` on an empty view raises `TypeError`.  These fire
before any log call, so those branches emit no records. -/
def interpretCore (arr : List Nat) : Except PyErr Image × List LogRec :=
  if (versionBytes arr).length % 4 ≠ 0 then (.error .valueError, [])
  else if (widthBytes arr).length % 4 ≠ 0 then (.error .valueError, [])
  else if (widthBytes arr).length ≠ 4 then (.error .typeError, [])
  else if (heightBytes arr).length % 4 ≠ 0 then (.error .valueError, [])
  else if (heightBytes arr).length ≠ 4 then (.error .typeError, [])
  else interpretBody arr

instance : DecidableEq (Except PyErr Image) := fun a b =>
  match a, b with
  | .error e1, .error e2 => decidable_of_iff (e1 = e2) (by simp)
  | .ok v1, .ok v2 => decidable_of_iff (v1 = v2) (by simp)
  | .error _, .ok _ => isFalse (by simp)
  | .ok _, .error _ => isFalse (by simp)

/-- ASCII bytes of the magic string `RAXIS`. -/
def RAXIS : List Nat := [82, 65, 88, 73, 83]

/-- The function `read_raxis_file` minus the file I/O: check the 5-byte magic (an
`IOError` if it fails), then `_interpret`. -/
def read_raxis_file (raw : List Nat) : Except PyErr Image :=
  if raw.take 5 ≠ RAXIS then .error .notRaxis
  else (interpretCore raw).1

/-- The log records a `read_raxis_file` call emits (none when the magic
check fails: the `IOError` is raised before `_interpret` runs). -/
def readRaxisLogs (raw : List Nat) : List LogRec :=
  if raw.take 5 ≠ RAXIS then [] else (interpretCore raw).2

/-- Serialise one u16 sample to two bytes under a byte order (used to
build the synthetic buffers the spec's round-trip property talks
about). -/
def encodeU16 (e : Endian) (v : Nat) : List Nat :=
  match e with
  | .big => [v / 256, v % 256]
  | .little => [v % 256, v / 256]

/-- Serialise a row-major pixel list to bytes. -/
def encodePixels (e : Endian) : List Nat → List Nat
  | [] => []
  | p :: ps => encodeU16 e p ++ encodePixels e ps

/-- Build a test buffer: magic, zero padding, width field at offset 768,
height field at offset 772, version field at offset 796, then
`padLen` further header bytes and the trailing data. -/
def mkBuf (w4 h4 v4 : List Nat) (padLen : Nat) (tail : List Nat) : List Nat :=
  RAXIS ++ List.replicate 763 0 ++ w4 ++ h4 ++ List.replicate 20 0 ++ v4 ++
    List.replicate padLen 0 ++ tail

set_option maxRecDepth 100000

/-! ### Basic facts about the embedding -/

theorem versionBytes_length (arr : List Nat) (h : 800 ≤ arr.length) :
    (versionBytes arr).length = 4 := by
  simp only [versionBytes, List.length_take, List.length_drop]
  omega

theorem widthBytes_length (arr : List Nat) (h : 776 ≤ arr.length) :
    (widthBytes arr).length = 4 := by
  simp only [widthBytes, List.length_take, List.length_drop]
  omega

theorem heightBytes_length (arr : List Nat) (h : 776 ≤ arr.length) :
    (heightBytes arr).length = 4 := by
  simp only [heightBytes, List.length_take, List.length_drop]
  omega

/-- On any buffer long enough to hold the whole header, `_interpret`
reaches its `try` block: none of the header reads raises. -/
theorem interpretCore_of_length (arr : List Nat) (h : 800 ≤ arr.length) :
    interpretCore arr = interpretBody arr := by
  rw [interpretCore, versionBytes_length arr h,
    widthBytes_length arr (by omega), heightBytes_length arr (by omega)]
  simp

/-- With a valid magic, `read_raxis_file` is `_interpret`. -/
theorem read_raxis_of_sig (raw : List Nat) (h : raw.take 5 = RAXIS) :
    read_raxis_file raw = (interpretCore raw).1 := by
  rw [read_raxis_file, if_neg (by simp [h])]

theorem readRaxisLogs_of_sig (raw : List Nat) (h : raw.take 5 = RAXIS) :
    readRaxisLogs raw = (interpretCore raw).2 := by
  rw [readRaxisLogs, if_neg (by simp [h])]

theorem pairU16_length (e : Endian) : (l : List Nat) →
    (pairU16 e l).length = l.length / 2
  | [] => by simp [pairU16]
  | [b] => by simp [pairU16]
  | b0 :: b1 :: rest => by
    have ih := pairU16_length e rest
    simp only [pairU16, List.length_cons, ih]
    omega

theorem pairU16_append (e : Endian) : (l1 l2 : List Nat) → l1.length % 2 = 0 →
    pairU16 e (l1 ++ l2) = pairU16 e l1 ++ pairU16 e l2
  | [], l2, _ => by simp [pairU16]
  | [b], l2, h => by simp at h
  | b0 :: b1 :: rest, l2, h => by
    have hr : rest.length % 2 = 0 := by
      simp only [List.length_cons] at h
      omega
    have ih := pairU16_append e rest l2 hr
    simp only [List.cons_append, pairU16, List.append_eq, ih]

theorem pairU16_encodePixels (e : Endian) : (ps : List Nat) →
    pairU16 e (encodePixels e ps) = ps
  | [] => by cases e <;> simp [encodePixels, pairU16]
  | p :: ps => by
    have ih := pairU16_encodePixels e ps
    cases e <;>
    · simp only [encodePixels, encodeU16, List.cons_append, List.nil_append,
        pairU16, ih]
      congr 1
      omega

theorem encodePixels_length (e : Endian) : (ps : List Nat) →
    (encodePixels e ps).length = 2 * ps.length
  | [] => by simp [encodePixels]
  | p :: ps => by
    have ih := encodePixels_length e ps
    cases e <;>
    · simp only [encodePixels, encodeU16, List.cons_append, List.nil_append,
        List.length_cons, ih]
      omega

/-- All branches of the `try` block come after the two log calls, so the
log output does not depend on which branch is taken. -/
theorem interpretBody_logs (arr : List Nat) :
    (interpretBody arr).2 = decodeLogRecords arr := by
  rw [interpretBody]
  split
  · rfl
  · split <;> rfl

/-- A buffer with fewer u16 samples than `width * height` hits the
`except ValueError` handler: either the odd length makes `.view('u2')`
raise, or the clamped slice is too short for `.reshape`. -/
theorem decode_shape_of_short (arr : List Nat) (hsig : arr.take 5 = RAXIS)
    (hlen : 800 ≤ arr.length)
    (hshort : arr.length / 2 < widthOf arr * heightOf arr) :
    read_raxis_file arr = .error (shapeErr arr) := by
  rw [read_raxis_of_sig arr hsig, interpretCore_of_length arr hlen, interpretBody]
  by_cases hpar : arr.length % 2 = 0
  · rw [if_neg (by omega)]
    have hne : (tailPixels arr).length ≠ widthOf arr * heightOf arr := by
      have hp := pairU16_length (resolveEndian arr) arr
      rw [tailPixels, if_neg (by omega), List.length_drop, hp]
      omega
    rw [if_neg hne]
  · rw [if_pos (by omega)]

/-- A buffer of odd byte length cannot be viewed as u16 samples at all:
`.view('u2')` raises `ValueError`, caught and re-raised as the
`ShapeError`. -/
theorem decode_shape_of_odd (arr : List Nat) (hsig : arr.take 5 = RAXIS)
    (hlen : 800 ≤ arr.length) (hodd : arr.length % 2 = 1) :
    read_raxis_file arr = .error (shapeErr arr) := by
  rw [read_raxis_of_sig arr hsig, interpretCore_of_length arr hlen, interpretBody,
    if_pos (by omega)]

/-- When `width * height = 0` the slice `[-0:]` selects every sample, so
`.reshape` fails on any non-empty buffer. -/
theorem decode_shape_of_zero (arr : List Nat) (hsig : arr.take 5 = RAXIS)
    (hlen : 800 ≤ arr.length) (hzero : widthOf arr * heightOf arr = 0) :
    read_raxis_file arr = .error (shapeErr arr) := by
  rw [read_raxis_of_sig arr hsig, interpretCore_of_length arr hlen, interpretBody]
  by_cases hpar : arr.length % 2 = 0
  · rw [if_neg (by omega)]
    have hne : (tailPixels arr).length ≠ widthOf arr * heightOf arr := by
      rw [tailPixels, if_pos hzero, pairU16_length, hzero]
      omega
    rw [if_neg hne]
  · rw [if_pos (by omega)]

/-! ### Concrete buffers used as test inputs -/

/-- A buffer of 803 bytes: an 801-byte header (one padding byte past offset 800) with
little-endian width = height = 1, followed by the 2-byte little-endian
encoding of the single pixel value 7. -/
def bufC1oddHeader : List Nat := mkBuf [1, 0, 0, 0] [1, 0, 0, 0] [255, 0, 0, 0] 1 []

def bufC1odd : List Nat := bufC1oddHeader ++ [7, 0]

/-- A buffer of 800 bytes with width = height = 0 and no trailing data. -/
def bufC1zero : List Nat := mkBuf [0, 0, 0, 0] [0, 0, 0, 0] [255, 0, 0, 0] 0 []

/-- An even-length 802-byte header plus one little-endian pixel. -/
def bufC1ok : List Nat := mkBuf [1, 0, 0, 0] [1, 0, 0, 0] [255, 0, 0, 0] 2 []

/-- A 776-byte buffer: magic, zero padding, width = height = 1
(little-endian, since the version slice is empty). -/
def bufC3 : List Nat := RAXIS ++ List.replicate 763 0 ++ [1, 0, 0, 0] ++ [1, 0, 0, 0]

/-- A 100-byte buffer starting with the magic. -/
def bufC3w : List Nat := RAXIS ++ List.replicate 95 0

/-- A buffer of 800 bytes whose version field is 20 big-endian. -/
def bufC4 : List Nat := mkBuf [0, 0, 0, 0] [0, 0, 0, 0] [0, 0, 0, 20] 0 []

/-- A buffer of 800 bytes with big-endian width = height = 70000. -/
def buf70k : List Nat := mkBuf [0, 1, 17, 112] [0, 1, 17, 112] [0, 0, 0, 0] 0 []

/-- A buffer of 800 bytes with big-endian width = 512, height = 256. -/
def bufC6 : List Nat := mkBuf [0, 0, 2, 0] [0, 0, 1, 0] [0, 0, 0, 0] 0 []

/-- A buffer of 801 bytes (odd) with little-endian width = height = 1. -/
def bufC7c : List Nat := mkBuf [1, 0, 0, 0] [1, 0, 0, 0] [255, 0, 0, 0] 1 []

/-- A buffer of 800 bytes with little-endian width = 0, height = 3. -/
def bufC7w : List Nat := mkBuf [0, 0, 0, 0] [3, 0, 0, 0] [255, 0, 0, 0] 0 []

/-- A buffer of 800 bytes with little-endian width = 2, height = 3; the last six u16
samples of the header region are its own bytes 788–799. -/
def bufC8 : List Nat := mkBuf [2, 0, 0, 0] [3, 0, 0, 0] [99, 0, 0, 0] 0 []

/-- A buffer of 801 bytes (odd) with little-endian width = 1, height = 2 and one
trailing byte. -/
def bufC9 : List Nat := mkBuf [1, 0, 0, 0] [2, 0, 0, 0] [255, 0, 0, 0] 0 [9]

/-- A buffer of 800 bytes with little-endian width = 0, height = 5. -/
def bufC10 : List Nat := mkBuf [0, 0, 0, 0] [5, 0, 0, 0] [255, 0, 0, 0] 0 []

/-! ### Claims -/

/-- C2: for every buffer of length at least 5 whose first 5 bytes are not
the ASCII string `RAXIS`, decode fails with the not-a-RAXIS-file error,
regardless of any other content. -/
theorem C2_not_raxis (raw : List Nat) (hlen : 5 ≤ raw.length)
    (hsig : raw.take 5 ≠ RAXIS) :
    read_raxis_file raw = .error .notRaxis := by
  rw [read_raxis_file, if_pos hsig]

theorem C2_not_raxis_witness :
    5 ≤ ([0, 1, 2, 3, 4, 5] : List Nat).length ∧
    ([0, 1, 2, 3, 4, 5] : List Nat).take 5 ≠ RAXIS ∧
    read_raxis_file [0, 1, 2, 3, 4, 5] = .error .notRaxis :=
  ⟨by decide, by decide, C2_not_raxis [0, 1, 2, 3, 4, 5] (by decide) (by decide)⟩

/-- C3 (counterexample): a 776-byte buffer that passes the signature
check decodes successfully, so decode does not fail — with a TooShort
error or otherwise — on every buffer shorter than 800 bytes. -/
theorem C3_counterexample :
    bufC3.take 5 = RAXIS ∧ bufC3.length = 776 ∧
    read_raxis_file bufC3 = .ok ⟨1, 1, [0]⟩ := by
  refine ⟨by decide, by decide, ?_⟩
  rw [read_raxis_file, if_neg (by decide), interpretCore, if_neg (by decide),
    if_neg (by decide), if_neg (by decide), if_neg (by decide), if_neg (by decide),
    interpretBody, if_neg (by decide), if_pos (by decide)]
  decide

/-- C3 (amended): the code has no minimum-length check and no TooShort
error.  A signature-valid buffer shorter than 776 bytes always fails,
but with an uncaught numpy ValueError or TypeError from the header
reads; buffers of length 776–799 can even decode successfully. -/
theorem C3_no_tooshort (raw : List Nat) (hsig : raw.take 5 = RAXIS)
    (hshort : raw.length < 776) :
    read_raxis_file raw = .error .valueError ∨
    read_raxis_file raw = .error .typeError := by
  rw [read_raxis_of_sig raw hsig, interpretCore]
  have hv : (versionBytes raw).length = 0 := by
    simp only [versionBytes, List.length_take, List.length_drop]
    omega
  have hw : (widthBytes raw).length = min 4 (raw.length - 768) := by
    simp only [widthBytes, List.length_take, List.length_drop]
  have hh : (heightBytes raw).length = min 4 (raw.length - 772) := by
    simp only [heightBytes, List.length_take, List.length_drop]
  rw [if_neg (by omega)]
  by_cases h1 : (widthBytes raw).length % 4 ≠ 0
  · rw [if_pos h1]
    left
    rfl
  · rw [if_neg h1]
    by_cases h2 : (widthBytes raw).length ≠ 4
    · rw [if_pos h2]
      right
      rfl
    · rw [if_neg h2]
      by_cases h3 : (heightBytes raw).length % 4 ≠ 0
      · rw [if_pos h3]
        left
        rfl
      · rw [if_neg h3, if_pos (by omega)]
        right
        rfl

theorem C3_no_tooshort_witness :
    bufC3w.take 5 = RAXIS ∧ bufC3w.length < 776 ∧
    (read_raxis_file bufC3w = .error .valueError ∨
     read_raxis_file bufC3w = .error .typeError) :=
  ⟨by decide, by decide, C3_no_tooshort bufC3w (by decide) (by decide)⟩

/-- C4: on any buffer holding the whole header, the resolved endianness
is big exactly when the big-endian reading of bytes 796–799 is below 20
(so a version field reading exactly 20 big-endian resolves to little),
and it depends only on those 4 bytes. -/
theorem C4_endianness (arr : List Nat) (hlen : 800 ≤ arr.length) :
    (resolveEndian arr = .big ↔ u4be (versionBytes arr) < 20) ∧
    (u4be (versionBytes arr) = 20 → resolveEndian arr = .little) ∧
    (∀ arr2 : List Nat, 800 ≤ arr2.length → versionBytes arr2 = versionBytes arr →
      resolveEndian arr2 = resolveEndian arr) := by
  have h4 := versionBytes_length arr hlen
  refine ⟨?_, ?_, ?_⟩
  · rw [resolveEndian]
    simp only [h4, true_and]
    split
    · simp_all
    · simp_all
  · intro h20
    rw [resolveEndian, if_neg (by omega)]
  · intro arr2 h2 heq
    rw [resolveEndian, resolveEndian, heq]

theorem C4_endianness_witness :
    800 ≤ bufC4.length ∧ u4be (versionBytes bufC4) = 20 ∧
    resolveEndian bufC4 = .little :=
  ⟨by decide, by decide, (C4_endianness bufC4 (by decide)).2.1 (by decide)⟩

/-- C6: whenever the header parses but the buffer holds fewer than
`width * height` u16 samples, decode fails with the ShapeError carrying
the diagnostics (it never returns a truncated or padded image). -/
theorem C6_too_few_samples (arr : List Nat) (hsig : arr.take 5 = RAXIS)
    (hlen : 800 ≤ arr.length) (hshort : arr.length / 2 < pixelCount arr) :
    read_raxis_file arr = .error (shapeErr arr) :=
  decode_shape_of_short arr hsig hlen hshort

theorem C6_too_few_samples_witness :
    bufC6.take 5 = RAXIS ∧ 800 ≤ bufC6.length ∧
    bufC6.length / 2 < pixelCount bufC6 ∧
    read_raxis_file bufC6 = .error (shapeErr bufC6) :=
  ⟨by decide, by decide, by decide,
    C6_too_few_samples bufC6 (by decide) (by decide) (by decide)⟩

/-- C9: a buffer of odd byte length with a valid signature and a full
header always fails with the ShapeError, whatever `width * height` is:
reinterpreting an odd number of bytes as u16 samples raises before
slicing. -/
theorem C9_odd_length (arr : List Nat) (hsig : arr.take 5 = RAXIS)
    (hlen : 800 ≤ arr.length) (hodd : arr.length % 2 = 1) :
    read_raxis_file arr = .error (shapeErr arr) :=
  decode_shape_of_odd arr hsig hlen hodd

theorem C9_odd_length_witness :
    bufC9.take 5 = RAXIS ∧ 800 ≤ bufC9.length ∧ bufC9.length % 2 = 1 ∧
    pixelCount bufC9 ≤ bufC9.length / 2 ∧
    read_raxis_file bufC9 = .error (shapeErr bufC9) :=
  ⟨by decide, by decide, by decide, by decide,
    C9_odd_length bufC9 (by decide) (by decide) (by decide)⟩

/-- C10: a buffer with a valid signature and full header whose declared
`width * height` is zero fails with the ShapeError instead of returning
an empty image: the slice `[-0:]` selects all samples, which cannot be
reshaped to a zero-sized grid. -/
theorem C10_zero_dims (arr : List Nat) (hsig : arr.take 5 = RAXIS)
    (hlen : 800 ≤ arr.length) (hzero : pixelCount arr = 0) :
    read_raxis_file arr = .error (shapeErr arr) :=
  decode_shape_of_zero arr hsig hlen hzero

theorem C10_zero_dims_witness :
    bufC10.take 5 = RAXIS ∧ 800 ≤ bufC10.length ∧ pixelCount bufC10 = 0 ∧
    read_raxis_file bufC10 = .error (shapeErr bufC10) :=
  ⟨by decide, by decide, by decide,
    C10_zero_dims bufC10 (by decide) (by decide) (by decide)⟩

/-- C5: width and height are multiplied as unbounded (`long`) integers,
so the pixel count never wraps modulo 2^32; a bare 800-byte header
declaring width = height reports a shape error whose payload carries the
true product. -/
theorem C5_overflow_safe (arr : List Nat) (W H : Nat) (hsig : arr.take 5 = RAXIS)
    (hlen : arr.length = 800) (hW : widthOf arr = W) (hH : heightOf arr = H)
    (hbig : 400 < W * H) :
    pixelCount arr = W * H ∧
    read_raxis_file arr = .error (.shape 800 200 W H (200 - ((W * H : Nat) : ℚ))) := by
  have h1 : pixelCount arr = W * H := by rw [pixelCount, hW, hH]
  have herr := decode_shape_of_short arr hsig (by omega) (by rw [hW, hH]; omega)
  refine ⟨h1, ?_⟩
  rw [herr, shapeErr, hlen, hW, hH]
  norm_num

theorem C5_overflow_safe_witness :
    widthOf buf70k = 70000 ∧ heightOf buf70k = 70000 ∧
    pixelCount buf70k = 4900000000 ∧
    read_raxis_file buf70k =
      .error (.shape 800 200 70000 70000 (200 - 4900000000)) := by
  have h := C5_overflow_safe buf70k 70000 70000 (by decide) (by decide) (by decide)
    (by decide) (by decide)
  refine ⟨by decide, by decide, ?_, ?_⟩
  · rw [h.1]
  · rw [h.2]
    norm_num

/-- C7 (counterexample): on an odd-length buffer the ShapeError payload
quarters the length with true division, so the discrepancy field is
801/4 - 1 = 199.25, not the floored 200 - 1 = 199 the claim asserts. -/
theorem C7_counterexample :
    read_raxis_file bufC7c = .error (.shape 801 ((801 : ℚ) / 4) 1 1 ((801 : ℚ) / 4 - 1)) ∧
    (801 : ℚ) / 4 - 1 ≠ ((801 / 4 : Nat) : ℚ) - ((1 * 1 : Nat) : ℚ) := by
  constructor
  · have h := decode_shape_of_odd bufC7c (by decide) (by decide) (by decide)
    rw [h, shapeErr, show bufC7c.length = 801 from by decide,
      show widthOf bufC7c = 1 from by decide, show heightOf bufC7c = 1 from by decide]
    norm_num
  · norm_num

/-- C7 (amended): whenever decode fails with the ShapeError, the payload
is exactly the raw byte length, the quarter length under true (not
floored) division, the width, the height, and the discrepancy
`rawLen / 4 - width * height` computed with true division; the floored
form agrees only when 4 divides the length. -/
theorem C7_shape_payload (arr : List Nat) (L : Nat) (q : ℚ) (w h : Nat) (d : ℚ)
    (heq : read_raxis_file arr = .error (.shape L q w h d)) :
    L = arr.length ∧ q = (arr.length : ℚ) / 4 ∧
    w = widthOf arr ∧ h = heightOf arr ∧
    d = (arr.length : ℚ) / 4 - ((widthOf arr * heightOf arr : Nat) : ℚ) := by
  rw [read_raxis_file] at heq
  split at heq
  · simp at heq
  · rw [interpretCore] at heq
    split at heq
    · simp at heq
    · split at heq
      · simp at heq
      · split at heq
        · simp at heq
        · split at heq
          · simp at heq
          · split at heq
            · simp at heq
            · rw [interpretBody] at heq
              split at heq
              · simp only [shapeErr, Except.error.injEq, PyErr.shape.injEq] at heq
                obtain ⟨h1, h2, h3, h4, h5⟩ := heq
                exact ⟨h1.symm, h2.symm, h3.symm, h4.symm, h5.symm⟩
              · split at heq
                · simp at heq
                · simp only [shapeErr, Except.error.injEq, PyErr.shape.injEq] at heq
                  obtain ⟨h1, h2, h3, h4, h5⟩ := heq
                  exact ⟨h1.symm, h2.symm, h3.symm, h4.symm, h5.symm⟩

theorem C7_shape_payload_witness :
    (800 : Nat) = bufC7w.length ∧ (200 : ℚ) = (bufC7w.length : ℚ) / 4 ∧
    (0 : Nat) = widthOf bufC7w ∧ (3 : Nat) = heightOf bufC7w ∧
    (200 : ℚ) = (bufC7w.length : ℚ) / 4 -
      ((widthOf bufC7w * heightOf bufC7w : Nat) : ℚ) := by
  apply C7_shape_payload bufC7w 800 200 0 3 200
  have h := decode_shape_of_zero bufC7w (by decide) (by decide) (by decide)
  rw [h, shapeErr, show bufC7w.length = 800 from by decide,
    show widthOf bufC7w = 0 from by decide, show heightOf bufC7w = 3 from by decide]
  norm_num

/-- C8 (counterexample): a successful decode is not free of log output:
the module-level logbook logger receives records. -/
theorem C8_counterexample :
    read_raxis_file bufC8 = .ok ⟨2, 3, [0, 0, 0, 0, 99, 0]⟩ ∧
    readRaxisLogs bufC8 ≠ [] := by
  constructor
  · rw [read_raxis_of_sig _ (by decide), interpretCore_of_length _ (by decide),
      interpretBody, if_neg (by decide), if_pos (by decide)]
    decide
  · rw [readRaxisLogs_of_sig _ (by decide), interpretCore_of_length _ (by decide),
      interpretBody_logs, decodeLogRecords]
    simp

/-- C8 (amended): all outcomes are communicated through the return value
or a structured error and nothing is printed, but decode is not
effect-free: every call that reaches the dimension read emits exactly
one info record (endianness and dimensions) and one debug record (the
diagnostics) through the module-level logbook logger. -/
theorem C8_logging (arr : List Nat) (hsig : arr.take 5 = RAXIS)
    (hlen : 800 ≤ arr.length) :
    readRaxisLogs arr =
      [LogRec.info (resolveEndian arr) (widthOf arr) (heightOf arr),
       LogRec.debug arr.length ((arr.length : ℚ) / 4) (widthOf arr) (heightOf arr)
         ((arr.length : ℚ) / 4 - ((widthOf arr * heightOf arr : Nat) : ℚ))] ∧
    readRaxisLogs arr ≠ [] := by
  rw [readRaxisLogs_of_sig arr hsig, interpretCore_of_length arr hlen,
    interpretBody_logs, decodeLogRecords]
  exact ⟨rfl, by simp⟩

theorem C8_logging_witness :
    bufC8.take 5 = RAXIS ∧ 800 ≤ bufC8.length ∧ readRaxisLogs bufC8 ≠ [] :=
  ⟨by decide, by decide, (C8_logging bufC8 (by decide) (by decide)).2⟩

/-- C1 (counterexample): the round-trip fails on two buffers that satisfy
every hypothesis of the claim.  With an odd-length (801-byte) header the
total length is odd, so `.view('u2')` raises and decode returns the
ShapeError instead of the image; with width = height = 0 the slice
`[-0:]` selects all 400 header samples and `.reshape((0, 0))` fails. -/
theorem C1_counterexample :
    (bufC1odd = bufC1oddHeader ++ encodePixels .little [7] ∧
     bufC1oddHeader.take 5 = RAXIS ∧ 800 ≤ bufC1oddHeader.length ∧
     resolveEndian bufC1odd = .little ∧
     widthOf bufC1odd = 1 ∧ heightOf bufC1odd = 1 ∧
     read_raxis_file bufC1odd ≠ .ok ⟨1, 1, [7]⟩) ∧
    (bufC1zero.take 5 = RAXIS ∧ 800 ≤ bufC1zero.length ∧
     resolveEndian bufC1zero = .little ∧
     widthOf bufC1zero = 0 ∧ heightOf bufC1zero = 0 ∧
     read_raxis_file bufC1zero ≠ .ok ⟨0, 0, []⟩) := by
  constructor
  · refine ⟨by decide, by decide, by decide, by decide, by decide, by decide, ?_⟩
    rw [decode_shape_of_odd bufC1odd (by decide) (by decide) (by decide)]
    simp
  · refine ⟨by decide, by decide, by decide, by decide, by decide, ?_⟩
    rw [decode_shape_of_zero bufC1zero (by decide) (by decide) (by decide)]
    simp

/-- C1 (amended): the round-trip holds under the two extra conditions the
counterexamples force: the header length must be even (so the buffer can
be viewed as u16 samples) and `W * H` must be positive (so the slice
`[-(W*H):]` really selects the trailing samples).  Then a buffer built
from any valid header followed by exactly `2*W*H` bytes encoding known
16-bit pixel values under the resolved endianness decodes to the image
with dimensions `(W, H)` and the original pixels in row-major order. -/
theorem C1_roundtrip (header pixels : List Nat) (e : Endian) (W H : Nat)
    (hsig : header.take 5 = RAXIS)
    (hhdr : 800 ≤ header.length)
    (heven : header.length % 2 = 0)
    (hend : resolveEndian (header ++ encodePixels e pixels) = e)
    (hW : widthOf (header ++ encodePixels e pixels) = W)
    (hH : heightOf (header ++ encodePixels e pixels) = H)
    (hcount : pixels.length = W * H)
    (hpos : 0 < W * H)
    (hpix : ∀ p ∈ pixels, p < 65536) :
    read_raxis_file (header ++ encodePixels e pixels) = .ok ⟨W, H, pixels⟩ := by
  set buf := header ++ encodePixels e pixels with hbuf
  have hsig2 : buf.take 5 = RAXIS := by
    rw [hbuf, List.take_append_of_le_length (by omega)]
    exact hsig
  have hblen : buf.length = header.length + 2 * pixels.length := by
    rw [hbuf, List.length_append, encodePixels_length]
  have hlen : 800 ≤ buf.length := by omega
  rw [read_raxis_of_sig buf hsig2, interpretCore_of_length buf hlen, interpretBody,
    if_neg (by omega)]
  have hsamples : pairU16 (resolveEndian buf) buf = pairU16 e header ++ pixels := by
    rw [hend, hbuf, pairU16_append e header _ heven, pairU16_encodePixels]
  have htail : tailPixels buf = pixels := by
    rw [tailPixels, if_neg (by rw [hW, hH]; omega), hsamples]
    have hdrop : (pairU16 e header ++ pixels).length - widthOf buf * heightOf buf
        = (pairU16 e header).length := by
      rw [List.length_append, hW, hH, ← hcount]
      omega
    rw [hdrop, List.drop_left]
  rw [if_pos (by rw [htail, hW, hH, ← hcount]), htail, hW, hH]

theorem C1_roundtrip_witness :
    bufC1ok.take 5 = RAXIS ∧ 800 ≤ bufC1ok.length ∧ bufC1ok.length % 2 = 0 ∧
    resolveEndian (bufC1ok ++ encodePixels .little [7]) = .little ∧
    widthOf (bufC1ok ++ encodePixels .little [7]) = 1 ∧
    heightOf (bufC1ok ++ encodePixels .little [7]) = 1 ∧
    read_raxis_file (bufC1ok ++ encodePixels .little [7]) = .ok ⟨1, 1, [7]⟩ :=
  ⟨by decide, by decide, by decide, by decide, by decide, by decide,
    C1_roundtrip bufC1ok [7] .little 1 1 (by decide) (by decide) (by decide)
      (by decide) (by decide) (by decide) (by decide) (by decide)
      (by intro p hp; simp at hp; omega)⟩
